import Mathlib

/-!
Shallow embedding of the transport and adapter layer of the modern_io
repository (net_io_base, tcp_endpoint, udp_endpoint, tcp_client,
tcp_server, udp_transport, net_io_adapters), together with theorems
settling the frozen claims about it.

Conventions of the embedding:
- byte buffers are lists of natural numbers;
- OS socket handles are integers, with -1 the invalid handle;
- a blocking OS receive is modelled as a queue of pending datagrams:
  an empty queue means the call would block, rendered as Option.none;
- return values of OS calls (read, write, select, accept) that the code
  merely inspects are passed in as explicit parameters, so each method
  becomes a pure function of its object state and the OS behaviour;
- C++ exceptions become Except values or explicit result constructors.

The repository ships two generations of some modules: the named files
(src/udp_transport.ixx, src/net_io_adapters.ixx) and unnamed variant
copies (src/unnamed/part_000, src/unnamed/part_001).  Where the variants
diverge, both are embedded; the variant definitions carry a P0 or P1
suffix after the part file they come from.
-/

namespace ModernIO

/-- Invalid socket handle constant from net_io_base (POSIX branch: -1). -/
def invalidSocket : Int := -1

/-- Raw OS socket address, the embedding of sockaddr_storage. -/
structure SockAddr where
  bytes : List Nat
deriving DecidableEq, Repr

/-- Embedding of net_io::SocketException: message, OS error code and
optional peer description. -/
structure SocketException where
  msg : String
  code : Int
  peer : Option String
deriving DecidableEq, Repr

/-- Error kinds thrown by this layer.  SocketException derives
std::runtime_error which derives std::exception; std::invalid_argument
also derives std::exception, so every constructor here is caught by a
catch clause for std::exception. -/
inductive CppError
  | invalidArgument (msg : String)
  | runtimeError (msg : String)
  | socketError (e : SocketException)
deriving DecidableEq, Repr

/-! ### Endpoints (src/tcp_endpoint.ixx and the udp_endpoint module) -/

/-- Embedding of net_io::TcpEndpoint: address and port value type. -/
structure TcpEndpoint where
  address : String
  port : Nat
deriving DecidableEq, Repr

/-- Embedding of the net_io::TcpEndpoint constructor: stores the fields
and throws std::invalid_argument when the address string is empty.  The
constructor body performs no OS call: no socket is created here. -/
def mkTcpEndpoint (addr : String) (p : Nat) : Except CppError TcpEndpoint :=
  if addr.isEmpty then
    .error (.invalidArgument "TcpEndpoint: empty address")
  else
    .ok ⟨addr, p⟩

/-- Embedding of net_io::UdpEndpoint: address, port and the optional
local-bind fields. -/
structure UdpEndpoint where
  address : String
  port : Nat
  bind_local : Bool
  local_port : Nat
deriving DecidableEq, Repr

/-- Embedding of the net_io::UdpEndpoint constructor: stores the fields
and throws std::invalid_argument when the remote address string is
empty.  The constructor body performs no OS call. -/
def mkUdpEndpoint (addr : String) (p : Nat) (bl : Bool) (lp : Nat) :
    Except CppError UdpEndpoint :=
  if addr.isEmpty then
    .error (.invalidArgument "UdpEndpoint: remote address empty")
  else
    .ok ⟨addr, p, bl, lp⟩

/-! ### TcpClient (src/tcp_client.ixx; src/unnamed/part_002 is identical
in behaviour for read, write and close) -/

/-- Embedding of net_io::TcpClient state: the owned socket handle. -/
structure TcpClient where
  fd : Int
deriving DecidableEq, Repr

/-- Embedding of TcpClient::is_open. -/
def TcpClient.is_open (c : TcpClient) : Bool :=
  c.fd != invalidSocket

/-- Embedding of TcpClient::read.  The parameter osRet is the return
value of the underlying OS read call (negative on error, 0 on peer
close, otherwise the byte count).  The method is noexcept and total:
a negative OS result is mapped to 0, everything else is returned
unchanged. -/
def TcpClient.read (_c : TcpClient) (osRet : Int) : Nat :=
  if osRet < 0 then 0 else osRet.toNat

/-- Embedding of TcpClient::write.  The parameter size is the request
size and osRet the return value of the single OS write call.  Throws
when the socket is not open, and throws when the OS call returned an
error or accepted fewer bytes than requested; otherwise returns unit.
The errno parameter is the OS error code captured for the exception. -/
def TcpClient.write (c : TcpClient) (size : Nat) (osRet : Int) (errno : Int) :
    Except SocketException Unit :=
  if c.fd = invalidSocket then
    .error ⟨"write() failed: socket not open", 0, none⟩
  else if osRet < 0 ∨ osRet.toNat ≠ size then
    .error ⟨"write() failed", errno, none⟩
  else
    .ok ()

/-- Embedding of TcpClient::close.  Returns the new object state and
the list of OS handles passed to the OS close call by this invocation:
a handle is closed only when the stored fd is still valid, and the
stored fd becomes invalid afterwards. -/
def TcpClient.close (c : TcpClient) : TcpClient × List Int :=
  if c.fd ≠ invalidSocket then (⟨invalidSocket⟩, [c.fd]) else (c, [])

/-! ### UdpTransport (src/udp_transport.ixx), and the variant of
src/unnamed/part_000 which carries the extra isBoundLocal flag -/

/-- Observable effect of a UDP send at the OS boundary. -/
inductive UdpSend
  /-- a sendto call: the payload is delivered to the explicit address -/
  | toAddr (payload : List Nat) (dest : SockAddr)
  /-- a send call on an unconnected socket: the OS rejects it and the
  noexcept method ignores the error, so nothing is delivered -/
  | dropped (payload : List Nat)
deriving DecidableEq, Repr

/-- Embedding of net_io::UdpTransport state.  The class stores only the
socket handle; connectedPeer records the OS-level connect state of that
handle (set by open_connect, absent after open_bind), which the plain
send call consults. -/
structure UdpTransport where
  fd : Int
  connectedPeer : Option SockAddr
deriving DecidableEq, Repr

/-- Embedding of UdpTransport::open_bind of the named file: creates a
socket (handle newFd supplied by the OS) and binds it; no connect is
performed, so the socket has no connected peer. -/
def UdpTransport.open_bind (_t : UdpTransport) (_ep : UdpEndpoint) (newFd : Int) :
    UdpTransport :=
  ⟨newFd, none⟩

/-- Embedding of UdpTransport::open_connect of the named file: creates a
socket and connects it to the resolved remote peer. -/
def UdpTransport.open_connect (_t : UdpTransport) (peerAddr : SockAddr) (newFd : Int) :
    UdpTransport :=
  ⟨newFd, some peerAddr⟩

/-- Embedding of UdpTransport::write of the named file: a plain send on
the socket, delivered to the connected peer when there is one and
rejected by the OS otherwise (the method is noexcept and ignores the
return value). -/
def UdpTransport.write (t : UdpTransport) (data : List Nat) : UdpSend :=
  match t.connectedPeer with
  | some p => .toAddr data p
  | none => .dropped data

/-- Embedding of UdpTransport::write_to of the named file: always a
sendto call to the explicit address, independent of any state. -/
def UdpTransport.write_to (_t : UdpTransport) (data : List Nat) (to_addr : SockAddr) :
    UdpSend :=
  .toAddr data to_addr

/-- Embedding of UdpTransport::close of the named file: same
idempotent close discipline as TcpClient::close. -/
def UdpTransport.close (t : UdpTransport) : UdpTransport × List Int :=
  if t.fd ≠ invalidSocket then (⟨invalidSocket, t.connectedPeer⟩, [t.fd]) else (t, [])

/-- Embedding of UdpTransport::is_open of the named file. -/
def UdpTransport.is_open (t : UdpTransport) : Bool :=
  t.fd != invalidSocket

/-- Embedding of the UdpTransport variant of src/unnamed/part_000,
which adds the member isBoundLocal (false on construction). -/
structure UdpTransportP0 where
  fd : Int
  connectedPeer : Option SockAddr
  isBoundLocal : Bool
deriving DecidableEq, Repr

/-- Embedding of open_bind of the part_000 variant: sets isBoundLocal
to the bind_local field of the endpoint, then binds; no connect. -/
def UdpTransportP0.open_bind (_t : UdpTransportP0) (ep : UdpEndpoint) (newFd : Int) :
    UdpTransportP0 :=
  ⟨newFd, none, ep.bind_local⟩

/-- Embedding of open_connect of the part_000 variant: creates a socket
and connects it; isBoundLocal is not assigned anywhere on this path, so
it keeps its current value (false for a fresh object). -/
def UdpTransportP0.open_connect (t : UdpTransportP0) (peerAddr : SockAddr) (newFd : Int) :
    UdpTransportP0 :=
  ⟨newFd, some peerAddr, t.isBoundLocal⟩

/-- Embedding of write of the part_000 variant (same body as the named
file). -/
def UdpTransportP0.write (t : UdpTransportP0) (data : List Nat) : UdpSend :=
  match t.connectedPeer with
  | some p => .toAddr data p
  | none => .dropped data

/-- Embedding of write_to of the part_000 variant: a sendto call to the
explicit address only when isBoundLocal holds; otherwise it falls back
to the plain write call, which targets the connected peer and ignores
the explicit address. -/
def UdpTransportP0.write_to (t : UdpTransportP0) (data : List Nat) (to_addr : SockAddr) :
    UdpSend :=
  if t.isBoundLocal then .toAddr data to_addr else t.write data

/-! ### DatagramSource (src/net_io_adapters.ixx lines 199 to 252; the
copy in src/unnamed/part_001 has the same body) -/

/-- Maximum UDP payload constant max_packet_ of DatagramSource. -/
def maxPacket : Nat := 65507

/-- Embedding of std::vector resize: truncate to n elements or pad with
value-initialised zero bytes up to n elements. -/
def resizeTo (l : List Nat) (n : Nat) : List Nat :=
  l.take n ++ List.replicate (n - l.length) 0

/-- Embedding of DatagramSource state: the pending inbound datagrams of
the underlying transport, the internal buffer and the read position.
A freshly constructed source has an empty buffer and position 0. -/
structure DatagramSource where
  queue : List (List Nat)
  buffer : List Nat
  pos : Nat
deriving DecidableEq, Repr

/-- Embedding of DatagramSource::read.  When the buffer is exhausted it
fetches the next datagram via the transport (recvfrom delivers at most
maxPacket bytes of one datagram and discards the rest; an empty queue
means the blocking call never returns, rendered as none).  A zero-byte
receive returns 0 early; note that on this path the buffer has already
been resized to maxPacket and neither buffer nor position is restored.
Otherwise it delivers min size remaining bytes from the buffer. -/
def DatagramSource.read (s : DatagramSource) (size : Nat) :
    Option (List Nat × DatagramSource) :=
  if s.pos ≥ s.buffer.length then
    match s.queue with
    | [] => none
    | d :: rest =>
      if min d.length maxPacket = 0 then
        some ([], { queue := rest, buffer := resizeTo s.buffer maxPacket, pos := s.pos })
      else
        some ((d.take maxPacket).take (min size (d.take maxPacket).length),
          { queue := rest, buffer := d.take maxPacket,
            pos := min size (d.take maxPacket).length })
  else
    some ((s.buffer.drop s.pos).take (min size (s.buffer.length - s.pos)),
      { s with pos := s.pos + min size (s.buffer.length - s.pos) })

/-! ### DuplexDatagramStream (src/net_io_adapters.ixx lines 261 to 359)
and the write method of the src/unnamed/part_001 variant, where the
no-peer guard is commented out -/

/-- One pending inbound datagram together with its sender address, as
recvfrom reports it. -/
structure Inbound where
  payload : List Nat
  sender : SockAddr
  senderLen : Nat
deriving DecidableEq, Repr

/-- Embedding of DuplexDatagramStream state: the pending inbound
datagrams of the unconnected socket and the remembered peer address
last_peer_ (an optional address and length pair, absent initially). -/
structure DuplexDatagramStream where
  inbox : List Inbound
  lastPeer : Option (SockAddr × Nat)
deriving DecidableEq, Repr

/-- Embedding of DuplexDatagramStream::read.  The four-argument read of
the source forwards straight to recvfrom on the transport: it pops the
next datagram, delivers at most size bytes and reports the sender.  On
a result of more than 0 bytes the remembered peer is replaced by the
sender address; on a zero-byte result it is left unchanged. -/
def DuplexDatagramStream.read (s : DuplexDatagramStream) (size : Nat) :
    Option (List Nat × DuplexDatagramStream) :=
  match s.inbox with
  | [] => none
  | d :: rest =>
    let n := min d.payload.length size
    some (d.payload.take size,
      { inbox := rest
        lastPeer := if 0 < n then some (d.sender, d.senderLen) else s.lastPeer })

/-- Result of a DuplexDatagramStream write in the named file: either a
datagram handed to sendto for the stored peer, or the thrown
std::runtime_error. -/
inductive DuplexWriteResult
  | sent (payload : List Nat) (dest : SockAddr) (destLen : Nat)
  | threw (msg : String)
deriving DecidableEq, Repr

/-- Embedding of DuplexDatagramStream::write of the named file: throws
std::runtime_error when no peer is stored, otherwise forwards the data
to write_to with the stored peer address. -/
def DuplexDatagramStream.write (s : DuplexDatagramStream) (data : List Nat) :
    DuplexWriteResult :=
  match s.lastPeer with
  | none => .threw "No peer address known for write"
  | some (a, l) => .sent data a l

/-- Embedding of DuplexDatagramStream::set_peer of the named file. -/
def DuplexDatagramStream.set_peer (s : DuplexDatagramStream)
    (addr : SockAddr) (addrlen : Nat) : DuplexDatagramStream :=
  { s with lastPeer := some (addr, addrlen) }

/-- Result of a DuplexDatagramStream write in the part_001 variant.
There the guard is commented out and the optional member is
dereferenced without a check: with no stored peer this is undefined
behaviour of the dereference, not a raised error. -/
inductive DuplexWriteResultP1
  | sent (payload : List Nat) (dest : SockAddr) (destLen : Nat)
  | undefinedDeref (payload : List Nat)
deriving DecidableEq, Repr

/-- Embedding of the write method of the DuplexDatagramStream variant
in src/unnamed/part_001: no error path exists; the stored peer is
dereferenced unconditionally. -/
def duplexWriteP1 (s : DuplexDatagramStream) (data : List Nat) :
    DuplexWriteResultP1 :=
  match s.lastPeer with
  | none => .undefinedDeref data
  | some (a, l) => .sent data a l

/-! ### TcpServer (src/tcp_server.ixx) -/

/-- Embedding of net_io::TcpServer state: the listening socket handles
and the configured accept timeout in milliseconds (-1 meaning none,
the default). -/
structure TcpServer where
  listenFds : List Int
  acceptTimeoutMs : Int
deriving DecidableEq, Repr

/-- Embedding of TcpServer::set_accept_timeout. -/
def TcpServer.set_accept_timeout (s : TcpServer) (ms : Int) : TcpServer :=
  { s with acceptTimeoutMs := ms }

/-- Embedding of TcpServer::stop: closes every listening handle and
clears the list.  Returns the new state and the handles passed to the
OS close call by this invocation. -/
def TcpServer.stop (s : TcpServer) : TcpServer × List Int :=
  ({ s with listenFds := [] }, s.listenFds)

/-- Outcome of one iteration of the while loop inside
TcpServer::accept. -/
inductive AcceptStep
  | threw (e : SocketException)
  | accepted (c : TcpClient)
  | retry
deriving DecidableEq, Repr

/-- Embedding of the scan over the listening sockets inside
TcpServer::accept: the first handle that is ready and whose OS accept
call yields a valid client handle produces the result; ready handles
whose accept call fails are skipped. -/
def scanReady (fds : List Int) (rfds : List Int) (osAccept : Int → Int) : Option Int :=
  match fds with
  | [] => none
  | fd :: rest =>
    if fd ∈ rfds ∧ osAccept fd ≠ invalidSocket then some (osAccept fd)
    else scanReady rest rfds osAccept

/-- Embedding of one iteration of the loop in TcpServer::accept.  The
parameters describe the OS behaviour of this iteration: ready is the
select return value, rfds the set of listening handles select marked
readable, osAccept the per-handle accept result and errno the OS error
code.  A negative select result throws the select failure; a zero
result throws the accept-timeout SocketException, but only when a
timeout was configured (the timeval is only passed to select in that
case); otherwise a ready handle is accepted into a new TcpClient, and
with no usable handle the loop runs again. -/
def TcpServer.accept_step (s : TcpServer) (ready : Int) (rfds : List Int)
    (osAccept : Int → Int) (errno : Int) : AcceptStep :=
  if ready < 0 then
    .threw ⟨"select failed", errno, none⟩
  else if ready = 0 ∧ 0 ≤ s.acceptTimeoutMs then
    .threw ⟨"accept timeout", 0, none⟩
  else
    match scanReady s.listenFds rfds osAccept with
    | some cfd => .accepted ⟨cfd⟩
    | none => .retry

/-! ### Server dispatch loop (run_server_with_executor,
src/net_io_adapters.ixx lines 640 to 672; the part_001 copy has the
same try-catch shape around accept) -/

/-- Outcome of one accept attempt inside the dispatch loop.  accept
throws only SocketException values (which derive std::exception), so
the scripted exception case carries one. -/
inductive AcceptOutcome
  | conn (c : TcpClient)
  | exn (e : SocketException)
deriving DecidableEq, Repr

/-- Log line produced by the catch handler of the dispatch loop. -/
def logLine (e : SocketException) : String :=
  "[net_io_adapters] Error accepting connection: " ++ e.msg

/-- Observable result of the dispatch loop: the log lines written by
the catch handler and the clients handed to the executor, in order. -/
structure LoopResult where
  log : List String
  dispatched : List TcpClient
deriving DecidableEq, Repr

/-- Embedding of the while loop of run_server_with_executor.  The
script pairs the value of the running flag observed at the top of each
iteration with the outcome of that accept attempt.  A false flag ends
the loop; a successful accept dispatches the client to the executor; a
caught exception appends a log line and the loop continues with the
next iteration. -/
def runServerLoop : List (Bool × AcceptOutcome) → LoopResult
  | [] => ⟨[], []⟩
  | (false, _) :: _ => ⟨[], []⟩
  | (true, .conn c) :: rest =>
    let r := runServerLoop rest
    ⟨r.log, c :: r.dispatched⟩
  | (true, .exn e) :: rest =>
    let r := runServerLoop rest
    ⟨logLine e :: r.log, r.dispatched⟩

/-- Counts the exception entries of a loop script. -/
def countExn (script : List AcceptOutcome) : Nat :=
  (script.filter fun o => match o with | .exn _ => true | .conn _ => false).length

/-- Counts the connection entries of a loop script. -/
def countConn (script : List AcceptOutcome) : Nat :=
  (script.filter fun o => match o with | .conn _ => true | .exn _ => false).length

/-! ## Theorems settling the claims -/

/-- C5: for every TcpClient and every buffer, write succeeds exactly
when the OS send call accepted the entire buffer in one invocation;
in particular a short write (fewer bytes accepted than requested, on an
open socket) raises a SocketError rather than looping to completion. -/
theorem C5_tcp_write_all_or_error (c : TcpClient) (size : Nat) (osRet errno : Int)
    (hopen : c.fd ≠ invalidSocket) :
    (c.write size osRet errno = .ok () ↔ osRet = (size : Int))
    ∧ (0 ≤ osRet → osRet < (size : Int) →
        c.write size osRet errno = .error ⟨"write() failed", errno, none⟩) := by
  unfold TcpClient.write
  rw [if_neg hopen]
  by_cases h : osRet < 0 ∨ osRet.toNat ≠ size
  · rw [if_pos h]
    refine ⟨⟨fun hc => Except.noConfusion hc, fun he => ?_⟩, fun _ _ => rfl⟩
    exfalso
    rcases h with h1 | h2
    · omega
    · exact h2 (by omega)
  · rw [if_neg h]
    push_neg at h
    obtain ⟨h1, h2⟩ := h
    refine ⟨⟨fun _ => (by omega), fun _ => rfl⟩, fun hge hlt => ?_⟩
    exfalso
    omega

/-- Witness for C5 at concrete inputs: a full write of 5 bytes succeeds
and a short write of 2 of 5 bytes raises the SocketException. -/
theorem C5_witness :
    ((⟨3⟩ : TcpClient).write 5 5 0 = .ok ())
    ∧ ((⟨3⟩ : TcpClient).write 5 2 9 = .error ⟨"write() failed", 9, none⟩) :=
  ⟨(C5_tcp_write_all_or_error ⟨3⟩ 5 5 0 (by decide)).1.mpr (by norm_num),
   (C5_tcp_write_all_or_error ⟨3⟩ 5 2 9 (by decide)).2 (by norm_num) (by norm_num)⟩

/-- C6: closing any transport twice is safe: after the first close the
handle is invalid and is_open is false, and the second close (stop for
the server) changes nothing and passes no OS handle to the OS close
call a second time. -/
theorem C6_close_idempotent :
    (∀ c : TcpClient, (c.close).1.close = ((c.close).1, [])
       ∧ (c.close).1.is_open = false ∧ (c.close).1.fd = invalidSocket)
    ∧ (∀ t : UdpTransport, ((t.close).1).close = ((t.close).1, [])
       ∧ (t.close).1.is_open = false ∧ (t.close).1.fd = invalidSocket)
    ∧ (∀ s : TcpServer, ((s.stop).1).stop = ((s.stop).1, [])
       ∧ (s.stop).1.listenFds = []) := by
  refine ⟨fun c => ?_, fun t => ?_, fun s => ⟨rfl, rfl⟩⟩
  · by_cases h : c.fd = invalidSocket
    · simp [TcpClient.close, TcpClient.is_open, h]
    · simp [TcpClient.close, TcpClient.is_open, h]
  · by_cases h : t.fd = invalidSocket
    · simp [UdpTransport.close, UdpTransport.is_open, h]
    · simp [UdpTransport.close, UdpTransport.is_open, h]

/-- C8: TcpClient read returns the byte count reported by the OS,
mapping every negative OS result (error) to 0, the same value an OS
result of 0 (peer close) yields; the two cases are indistinguishable
in the return value and the method is total, it never raises. -/
theorem C8_tcp_read_zero_on_error_and_close (c : TcpClient) (osRet : Int) :
    (osRet < 0 → c.read osRet = 0)
    ∧ c.read 0 = 0
    ∧ (0 ≤ osRet → (c.read osRet : Int) = osRet) := by
  unfold TcpClient.read
  refine ⟨fun h => if_pos h, by norm_num, fun h => ?_⟩
  rw [if_neg (by omega)]
  omega

/-- Witness for C8 at concrete inputs: an OS error result of -1 and a
peer-close result of 0 both yield 0, and a result of 4 yields 4. -/
theorem C8_witness :
    (⟨3⟩ : TcpClient).read (-1) = 0
    ∧ (⟨3⟩ : TcpClient).read 0 = 0
    ∧ ((⟨3⟩ : TcpClient).read 4 : Int) = 4 :=
  ⟨(C8_tcp_read_zero_on_error_and_close ⟨3⟩ (-1)).1 (by norm_num),
   (C8_tcp_read_zero_on_error_and_close ⟨3⟩ 0).2.1,
   (C8_tcp_read_zero_on_error_and_close ⟨3⟩ 4).2.2 (by norm_num)⟩

/-- C9: for both endpoint kinds, construction with an empty address
string fails with the std::invalid_argument error (the constructor
performs no OS call, so this precedes any socket creation), and
construction with a non-empty address succeeds with the stored fields
equal to the constructor arguments; no operation of the layer mutates
an endpoint afterwards, the stored values are fixed at construction. -/
theorem C9_endpoint_empty_address_fails :
    (∀ p, mkTcpEndpoint "" p = .error (.invalidArgument "TcpEndpoint: empty address"))
    ∧ (∀ p bl lp, mkUdpEndpoint "" p bl lp =
        .error (.invalidArgument "UdpEndpoint: remote address empty"))
    ∧ (∀ a p, a ≠ "" → mkTcpEndpoint a p = .ok ⟨a, p⟩)
    ∧ (∀ a p bl lp, a ≠ "" → mkUdpEndpoint a p bl lp = .ok ⟨a, p, bl, lp⟩) := by
  refine ⟨fun p => rfl, fun p bl lp => rfl, fun a p h => ?_, fun a p bl lp h => ?_⟩
  · unfold mkTcpEndpoint
    rw [if_neg (by simpa [String.isEmpty_iff] using h)]
  · unfold mkUdpEndpoint
    rw [if_neg (by simpa [String.isEmpty_iff] using h)]

/-- Witness for C9 at concrete inputs: both constructions with the
empty address fail, both with the address 127.0.0.1 succeed and store
the arguments. -/
theorem C9_witness :
    mkTcpEndpoint "" 9050 = .error (.invalidArgument "TcpEndpoint: empty address")
    ∧ mkUdpEndpoint "" 9050 false 0 =
        .error (.invalidArgument "UdpEndpoint: remote address empty")
    ∧ mkTcpEndpoint "127.0.0.1" 9050 = .ok ⟨"127.0.0.1", 9050⟩
    ∧ mkUdpEndpoint "127.0.0.1" 9050 false 0 = .ok ⟨"127.0.0.1", 9050, false, 0⟩ :=
  ⟨C9_endpoint_empty_address_fails.1 9050,
   C9_endpoint_empty_address_fails.2.1 9050 false 0,
   C9_endpoint_empty_address_fails.2.2.1 "127.0.0.1" 9050 (by decide),
   C9_endpoint_empty_address_fails.2.2.2 "127.0.0.1" 9050 false 0 (by decide)⟩

/-- C4: with an accept timeout configured, an expired wait (select
returning 0) makes accept throw the accept-timeout SocketException;
that exception arises only when a timeout was configured and expired,
it differs from the hard select-failure exception, and on readiness
accept returns a new connected TcpClient instead. -/
theorem C4_accept_timeout_distinct (s : TcpServer) (ready : Int) (rfds : List Int)
    (osAccept : Int → Int) (errno : Int) :
    (0 ≤ s.acceptTimeoutMs → ready = 0 →
      s.accept_step ready rfds osAccept errno = .threw ⟨"accept timeout", 0, none⟩)
    ∧ (s.accept_step ready rfds osAccept errno = .threw ⟨"accept timeout", 0, none⟩ →
      0 ≤ s.acceptTimeoutMs ∧ ready = 0)
    ∧ (ready < 0 →
      s.accept_step ready rfds osAccept errno = .threw ⟨"select failed", errno, none⟩
        ∧ (⟨"select failed", errno, none⟩ : SocketException) ≠ ⟨"accept timeout", 0, none⟩)
    ∧ (∀ cfd, 0 < ready → scanReady s.listenFds rfds osAccept = some cfd →
      s.accept_step ready rfds osAccept errno = .accepted ⟨cfd⟩) := by
  unfold TcpServer.accept_step
  refine ⟨fun ht hr => ?_, fun h => ?_, fun hneg => ⟨?_, ?_⟩, fun cfd hpos hscan => ?_⟩
  · rw [if_neg (by omega), if_pos ⟨hr, ht⟩]
  · by_cases hneg : ready < 0
    · rw [if_pos hneg] at h
      exfalso
      injection h with h2
      have hm : ("select failed" : String) = "accept timeout" :=
        congrArg SocketException.msg h2
      exact absurd hm (by decide)
    · rw [if_neg hneg] at h
      by_cases hto : ready = 0 ∧ 0 ≤ s.acceptTimeoutMs
      · exact ⟨hto.2, hto.1⟩
      · rw [if_neg hto] at h
        exfalso
        cases hsc : scanReady s.listenFds rfds osAccept with
        | none => rw [hsc] at h; cases h
        | some cfd => rw [hsc] at h; cases h
  · rw [if_pos hneg]
  · intro hcon
    have hm : ("select failed" : String) = "accept timeout" :=
      congrArg SocketException.msg hcon
    exact absurd hm (by decide)
  · rw [if_neg (by omega), if_neg (by omega), hscan]

/-- Witness for C4 at concrete inputs: a server with listening handle 4
and a 100 ms timeout throws the accept-timeout exception when select
reports 0 ready handles, and accepts client handle 7 when select
reports handle 4 ready. -/
theorem C4_witness :
    (TcpServer.accept_step ⟨[4], 100⟩ 0 [] (fun _ => 7) 0
      = .threw ⟨"accept timeout", 0, none⟩)
    ∧ (TcpServer.accept_step ⟨[4], 100⟩ 1 [4] (fun _ => 7) 0 = .accepted ⟨7⟩) :=
  ⟨(C4_accept_timeout_distinct ⟨[4], 100⟩ 0 [] (fun _ => 7) 0).1 (by norm_num) rfl,
   (C4_accept_timeout_distinct ⟨[4], 100⟩ 1 [4] (fun _ => 7) 0).2.2.2 7 (by norm_num)
     (by decide)⟩

/-- C7: in the server dispatch loop an exception from accept is caught,
appended to the log, and the loop continues with the next iteration,
which re-checks the running flag; over any schedule of outcomes with
the running flag held true, every exception is logged and every
accepted connection is dispatched, so a failure never terminates the
loop or escapes it. -/
theorem C7_accept_loop_absorbs_failures :
    (∀ e rest, runServerLoop ((true, .exn e) :: rest) =
      ⟨logLine e :: (runServerLoop rest).log, (runServerLoop rest).dispatched⟩)
    ∧ (∀ o rest, runServerLoop ((false, o) :: rest) = ⟨[], []⟩)
    ∧ (∀ script : List AcceptOutcome,
      (runServerLoop (script.map fun o => (true, o))).log.length = countExn script
        ∧ (runServerLoop (script.map fun o => (true, o))).dispatched.length
            = countConn script) := by
  refine ⟨fun e rest => rfl, fun o rest => rfl, fun script => ?_⟩
  induction script with
  | nil => exact ⟨rfl, rfl⟩
  | cons head tail ih =>
    cases head with
    | conn c =>
      simpa [runServerLoop, countExn, countConn, List.filter] using ih
    | exn e =>
      simpa [runServerLoop, countExn, countConn, List.filter] using ih

/-- C10: the internal buffer of a DatagramSource never exceeds
maxPacket (65507) bytes, the fetch stores only the first maxPacket
bytes of the fetched datagram (recvfrom discards the excess), and no
single read delivers more than maxPacket bytes. -/
theorem C10_datagram_buffer_bounded (s : DatagramSource) (size : Nat)
    (hb : s.buffer.length ≤ maxPacket) :
    (∀ r s', s.read size = some (r, s') →
      r.length ≤ maxPacket ∧ s'.buffer.length ≤ maxPacket)
    ∧ (∀ (d : List Nat) rest, s.queue = d :: rest → s.buffer.length ≤ s.pos →
      0 < d.length →
      s.read size = some ((d.take maxPacket).take (min size (d.take maxPacket).length),
        ⟨rest, d.take maxPacket, min size (d.take maxPacket).length⟩)) := by
  have hMP : maxPacket = 65507 := rfl
  constructor
  · intro r s' h
    unfold DatagramSource.read at h
    split at h
    · split at h
      · cases h
      · split at h
        · injection h with h1
          injection h1 with hr hs
          subst hr
          subst hs
          refine ⟨by simp, ?_⟩
          simp only [resizeTo, List.length_append, List.length_take,
            List.length_replicate]
          omega
        · injection h with h1
          injection h1 with hr hs
          subst hr
          subst hs
          simp only [List.length_take]
          omega
    · injection h with h1
      injection h1 with hr hs
      subst hr
      subst hs
      simp only [List.length_take, List.length_drop]
      omega
  · intro d rest hq hpos hd
    unfold DatagramSource.read
    rw [if_pos (by omega), hq]
    have hg : ¬ (min d.length maxPacket = 0) := by omega
    simp only [if_neg hg]

/-- Witness for C10 at a concrete input: from the single queued
datagram of bytes 1 2 3 a read of request size 2 delivers exactly the
first two bytes, and the delivered chunk is below the maxPacket
bound. -/
theorem C10_witness :
    DatagramSource.read ⟨[[1, 2, 3]], [], 0⟩ 2 = some ([1, 2], ⟨[], [1, 2, 3], 2⟩)
    ∧ ∀ r s', DatagramSource.read ⟨[[1, 2, 3]], [], 0⟩ 2 = some (r, s') →
        r.length ≤ maxPacket := by
  constructor
  · have h := (C10_datagram_buffer_bounded ⟨[[1, 2, 3]], [], 0⟩ 2
      (by norm_num [maxPacket])).2 [1, 2, 3] [] rfl (by norm_num) (by norm_num)
    have ht : ([1, 2, 3] : List Nat).take maxPacket = [1, 2, 3] := by
      rw [List.take_of_length_le (by norm_num [maxPacket])]
    rw [ht] at h
    simpa using h
  · intro r s' h
    exact ((C10_datagram_buffer_bounded ⟨[[1, 2, 3]], [], 0⟩ 2
      (by norm_num [maxPacket])).1 r s' h).1

/-- C3: reads of a DatagramSource deliver bytes of the one currently
buffered datagram; a fetch happens only when the buffer is exhausted, a
read delivers at most the bytes remaining in the buffer even when the
request is larger, and a zero-length receive returns 0.  The final
conjunct evaluates the code at the failing input: a zero-length receive
leaves the internal buffer resized to maxPacket bytes, so the very next
read delivers five filler bytes that were never part of any received
datagram, without fetching anything, contradicting the headline
one-datagram property. -/
theorem C3_datagram_reads_single_datagram :
    (∀ (s : DatagramSource) (size : Nat), s.pos < s.buffer.length →
      s.read size = some ((s.buffer.drop s.pos).take (min size (s.buffer.length - s.pos)),
        ⟨s.queue, s.buffer, s.pos + min size (s.buffer.length - s.pos)⟩))
    ∧ (∀ (s : DatagramSource) (d : List Nat) rest (size : Nat),
      s.queue = d :: rest → s.buffer.length ≤ s.pos → 0 < d.length →
      s.read size = some ((d.take maxPacket).take (min size (d.take maxPacket).length),
        ⟨rest, d.take maxPacket, min size (d.take maxPacket).length⟩))
    ∧ (∀ (s : DatagramSource) rest (size : Nat),
      s.queue = [] :: rest → s.buffer.length ≤ s.pos →
      s.read size = some ([], ⟨rest, resizeTo s.buffer maxPacket, s.pos⟩))
    ∧ (DatagramSource.read ⟨[[]], [], 0⟩ 5
        = some ([], ⟨[], List.replicate maxPacket 0, 0⟩)
      ∧ DatagramSource.read ⟨[], List.replicate maxPacket 0, 0⟩ 5
        = some (List.replicate 5 0, ⟨[], List.replicate maxPacket 0, 5⟩)) := by
  have hMP : maxPacket = 65507 := rfl
  have hzero : ∀ (s : DatagramSource) rest (size : Nat),
      s.queue = [] :: rest → s.buffer.length ≤ s.pos →
      s.read size = some ([], ⟨rest, resizeTo s.buffer maxPacket, s.pos⟩) := by
    intro s rest size hq hpos
    unfold DatagramSource.read
    rw [if_pos (by omega), hq]
    simp
  refine ⟨fun s size hlt => ?_, fun s d rest size hq hpos hd => ?_, hzero, ?_, ?_⟩
  · unfold DatagramSource.read
    rw [if_neg (by omega)]
  · unfold DatagramSource.read
    rw [if_pos (by omega), hq]
    have hg : ¬ (min d.length maxPacket = 0) := by omega
    simp only [if_neg hg]
  · have h := hzero ⟨[[]], [], 0⟩ [] 5 rfl (by simp)
    have hr : resizeTo [] maxPacket = List.replicate maxPacket 0 := by
      simp only [resizeTo, List.take_nil, List.nil_append, List.length_nil,
        Nat.sub_zero]
    rw [hr] at h
    exact h
  · have hlen : (List.replicate maxPacket 0).length = maxPacket :=
      List.length_replicate _ _
    have hmin : min 5 maxPacket = 5 := by omega
    unfold DatagramSource.read
    rw [if_neg (by simp only [hlen]; omega)]
    simp only [hlen, Nat.sub_zero, List.drop_zero, List.take_replicate, hmin,
      Nat.zero_add]

/-- Witness for C3 at a concrete input: a source holding buffered bytes
9 8 7 at position 1 serves the remaining two bytes from that same
buffer for a request of 5, touching no queued datagram. -/
theorem C3_witness :
    DatagramSource.read ⟨[], [9, 8, 7], 1⟩ 5 = some ([8, 7], ⟨[], [9, 8, 7], 3⟩) := by
  have h := C3_datagram_reads_single_datagram.1 ⟨[], [9, 8, 7], 1⟩ 5 (by norm_num)
  simpa using h

/-- C1: a DuplexDatagramStream read of more than 0 bytes replaces the
remembered peer with the sender address of the received datagram, a
plain write with a remembered peer hands the payload to sendto for that
peer, and in the named adapter file a write with no known peer throws
the runtime error.  The final conjunct evaluates the part_001 variant
at the failing input: there the guard is commented out, so a write with
no known peer dereferences the absent optional peer instead of raising
an error. -/
theorem C1_duplex_write_requires_peer :
    (∀ (s : DuplexDatagramStream) (d : Inbound) rest (size : Nat),
      s.inbox = d :: rest → 0 < min d.payload.length size →
      s.read size = some (d.payload.take size, ⟨rest, some (d.sender, d.senderLen)⟩))
    ∧ (∀ (s : DuplexDatagramStream) (a : SockAddr) (l : Nat) (data : List Nat),
      s.lastPeer = some (a, l) → s.write data = .sent data a l)
    ∧ (∀ (s : DuplexDatagramStream) (data : List Nat),
      s.lastPeer = none → s.write data = .threw "No peer address known for write")
    ∧ duplexWriteP1 ⟨[], none⟩ [7] = .undefinedDeref [7] := by
  refine ⟨fun s d rest size hq hn => ?_, fun s a l data hp => ?_,
    fun s data hp => ?_, rfl⟩
  · unfold DuplexDatagramStream.read
    rw [hq]
    simp only [if_pos hn]
  · unfold DuplexDatagramStream.write
    rw [hp]
  · unfold DuplexDatagramStream.write
    rw [hp]

/-- Witness for C1 at concrete inputs: before any receive a plain write
throws; after receiving one byte from the sender with address byte 9
the remembered peer is that sender, and the next plain write goes to
it. -/
theorem C1_witness :
    ((⟨[], none⟩ : DuplexDatagramStream).write [7]
      = .threw "No peer address known for write")
    ∧ ((⟨[⟨[5], ⟨[9]⟩, 4⟩], none⟩ : DuplexDatagramStream).read 1
      = some ([5], ⟨[], some (⟨[9]⟩, 4)⟩))
    ∧ ((⟨[], some (⟨[9]⟩, 4)⟩ : DuplexDatagramStream).write [7]
      = .sent [7] ⟨[9]⟩ 4) := by
  refine ⟨C1_duplex_write_requires_peer.2.2.1 ⟨[], none⟩ [7] rfl, ?_, ?_⟩
  · have h := C1_duplex_write_requires_peer.1 ⟨[⟨[5], ⟨[9]⟩, 4⟩], none⟩
      ⟨[5], ⟨[9]⟩, 4⟩ [] 1 rfl (by norm_num)
    simpa using h
  · exact C1_duplex_write_requires_peer.2.1 ⟨[], some (⟨[9]⟩, 4)⟩ ⟨[9]⟩ 4 [7] rfl

/-- C2: write_to of the named UdpTransport always performs a sendto
call targeting the explicit address, whether the socket came from
open_bind or open_connect.  The final conjuncts evaluate the part_000
variant at the failing inputs: a socket opened via open_connect has
isBoundLocal false, so its write_to silently redirects the datagram to
the connected peer; a socket opened via open_bind from an endpoint with
bind_local false even ends in a plain send on an unconnected socket,
which the OS rejects and the noexcept method drops. -/
theorem C2_write_to_explicit_destination :
    (∀ (t : UdpTransport) (data : List Nat) (a : SockAddr),
      t.write_to data a = .toAddr data a)
    ∧ (∀ (t : UdpTransport) (ep : UdpEndpoint) (f : Int) (p : SockAddr)
        (data : List Nat) (a : SockAddr),
      (t.open_bind ep f).write_to data a = .toAddr data a
        ∧ (t.open_connect p f).write_to data a = .toAddr data a)
    ∧ ((UdpTransportP0.open_connect ⟨invalidSocket, none, false⟩ ⟨[2]⟩ 3).write_to
        [9] ⟨[1]⟩ = .toAddr [9] ⟨[2]⟩
      ∧ (UdpTransportP0.open_connect ⟨invalidSocket, none, false⟩ ⟨[2]⟩ 3).write_to
        [9] ⟨[1]⟩ ≠ .toAddr [9] ⟨[1]⟩)
    ∧ ((UdpTransportP0.open_bind ⟨invalidSocket, none, false⟩
        ⟨"127.0.0.1", 9050, false, 0⟩ 3).write_to [9] ⟨[1]⟩ = .dropped [9]) :=
  ⟨fun _ _ _ => rfl, fun _ _ _ _ _ _ => ⟨rfl, rfl⟩, ⟨rfl, by decide⟩, rfl⟩

end ModernIO
